import Mathlib

/-!
Shallow embedding of `src/compliant_database_py.py` (class `DatabaseConnection`,
called `DatabaseBootstrapper` in the spec), together with a model of the
relevant SQLite storage-engine semantics:

* the `users` table is a list of `UserRow`;
* `INSERT OR REPLACE` follows SQLite REPLACE conflict resolution: a pre-existing
  row that violates the PRIMARY KEY constraint (same `id`) or the UNIQUE
  constraint on `email` is deleted before the new row is inserted;
* `created_at` is filled from the `DEFAULT CURRENT_TIMESTAMP` clause, modelled
  as the timestamp `t` of the run;
* exceptions (`sqlite3.Error`, other Python errors, `ValueError` from `int()`)
  are modelled with `Option`/`Except` style outcomes.
-/

namespace CompliantDatabase

/-- A row of the `users` table, per the DDL in `_createUserTable`. -/
structure UserRow where
  id : Int
  name : String
  email : String
  age : Int
  department : String
  salary : Rat
  created_at : Nat
  deriving DecidableEq, Repr

/-- The `sampleUsers` literal list from `_insertSampleData`
(six supplied columns; `created_at` is left to the column default). -/
def sampleUsers : List (Int × String × String × Int × String × Rat) :=
  [ (1, "John Doe", "john@example.com", 30, "IT", 75000),
    (2, "Jane Smith", "jane@example.com", 28, "HR", 65000),
    (3, "Bob Johnson", "bob@example.com", 35, "Finance", 80000),
    (4, "Alice Brown", "alice@example.com", 32, "IT", 78000),
    (5, "Charlie Davis", "charlie@example.com", 29, "Marketing", 70000) ]

/-- Build the stored row for one seed tuple: the six supplied columns plus
`created_at` filled by the `DEFAULT CURRENT_TIMESTAMP` clause, modelled as the
timestamp `t` of the run performing the insert. -/
def mkSeedRow (t : Nat) (u : Int × String × String × Int × String × Rat) : UserRow :=
  ⟨u.1, u.2.1, u.2.2.1, u.2.2.2.1, u.2.2.2.2.1, u.2.2.2.2.2, t⟩

/-- SQLite REPLACE conflict test for the `users` schema: row `r` conflicts with
the incoming row `s` when it violates the `id` PRIMARY KEY or the `email`
UNIQUE constraint. -/
def replaceConflict (s r : UserRow) : Bool :=
  r.id == s.id || r.email == s.email

/-- One `INSERT OR REPLACE INTO users ... VALUES (?,?,?,?,?,?)` statement:
SQLite deletes every pre-existing row that conflicts on a uniqueness
constraint, then inserts the new row. -/
def insertOrReplace (s : UserRow) (tbl : List UserRow) : List UserRow :=
  tbl.filter (fun r => !replaceConflict s r) ++ [s]

/-- `_insertSampleData`: `cursor.executemany` of the upsert over `sampleUsers`,
in list order, at run timestamp `t`. -/
def insertSampleData (t : Nat) (tbl : List UserRow) : List UserRow :=
  (sampleUsers.map (mkSeedRow t)).foldl (fun acc s => insertOrReplace s acc) tbl

/-- `_createUserTable`: `CREATE TABLE IF NOT EXISTS users (...)` — creates an
empty table when absent, leaves the state unchanged (no error) when present. -/
def createUserTable (db : Option (List UserRow)) : Option (List UserRow) :=
  match db with
  | none => some []
  | some tbl => some tbl

/-- The state transition of one successful `initializeDatabase` run at
timestamp `t`: ensure the schema, then upsert the seed rows, then commit. -/
def initializeRun (t : Nat) (db : Option (List UserRow)) : Option (List UserRow) :=
  match createUserTable db with
  | none => none
  | some tbl => some (insertSampleData t tbl)

/-- `n` successive successful `initializeDatabase` runs, run `k` (0-based)
happening at timestamp `ts k`. -/
def iterateInit (ts : Nat → Nat) : Nat → Option (List UserRow) → Option (List UserRow)
  | 0, db => db
  | n + 1, db => initializeRun (ts n) (iterateInit ts n db)

/-- The seed primary keys. -/
def seedIds : List Int := [1, 2, 3, 4, 5]

/-- The seed email values, in seed order. -/
def seedEmails : List String :=
  ["john@example.com", "jane@example.com", "bob@example.com",
   "alice@example.com", "charlie@example.com"]

/-- A row conflicts with some seed row: its `id` is a seed id or its `email`
is a seed email.  Exactly these pre-existing rows are deleted by the seed
upsert. -/
def conflictsAnySeed (r : UserRow) : Bool :=
  seedIds.contains r.id || seedEmails.contains r.email

/-- Projection of a stored row to the six columns supplied by the seed
statement (everything except `created_at`). -/
def proj6 (r : UserRow) : Int × String × String × Int × String × Rat :=
  (r.id, r.name, r.email, r.age, r.department, r.salary)

/-! ### Configuration and construction (`__init__`) -/

/-- The process environment: variable name to optional value. -/
def Env : Type := String → Option String

/-- The Python errors this program can raise outside the storage engine. -/
inductive PyError where
  | valueError
  deriving DecidableEq, Repr

/-- Strip whitespace from both ends of a character list (the stripping
Python `int()` applies before parsing). -/
def stripWs (l : List Char) : List Char :=
  ((l.dropWhile Char.isWhitespace).reverse.dropWhile Char.isWhitespace).reverse

/-- Digits-only string to number, per Python `int()` on a digit run. -/
def digitsToNat (l : List Char) : Option Nat :=
  if l ≠ [] ∧ l.all Char.isDigit then
    some (l.foldl (fun n c => 10 * n + (c.toNat - 48)) 0)
  else
    none

/-- Model of Python `int(s)`: surrounding whitespace stripped, an optional
sign, then a nonempty run of decimal digits; anything else raises
`ValueError`. -/
def pyInt (s : String) : Option Int :=
  match stripWs s.data with
  | '+' :: rest => (digitsToNat rest).map Int.ofNat
  | '-' :: rest => (digitsToNat rest).map (fun n => -(n : Int))
  | rest => (digitsToNat rest).map Int.ofNat

/-- The component state set up by `__init__`: `dbPath` (the spec's
`storagePath`) and `connectionTimeout` (the spec's
`connectionTimeoutSeconds`). -/
structure DatabaseConnection where
  dbPath : String
  connectionTimeout : Int
  deriving DecidableEq, Repr

/-- `DatabaseConnection.__init__`: reads `DATABASE_PATH` with default
`users.db` and `DB_TIMEOUT` parsed by `int()` with default `30`; a
non-integer `DB_TIMEOUT` raises `ValueError`. -/
def fromEnv (env : Env) : Except PyError DatabaseConnection :=
  match pyInt ((env "DB_TIMEOUT").getD "30") with
  | some k => .ok ⟨(env "DATABASE_PATH").getD "users.db", k⟩
  | none => .error .valueError

/-! ### `getConnection` (the spec's `acquireConnection`) -/

/-- What the caller's `with`-body does with the yielded connection: return a
value normally, raise a storage-engine (`sqlite3.Error`) error, or raise any
other Python error. -/
inductive BodyOutcome (α : Type) where
  | ok (a : α)
  | sqliteErr (msg : String)
  | otherErr (msg : String)
  deriving DecidableEq, Repr

/-- How control leaves the `getConnection` scope: a normal value, a re-raised
storage-engine error, or a propagated non-storage error. -/
inductive ExitOutcome (α : Type) where
  | normal (a : α)
  | sqliteRaise (msg : String)
  | otherRaise (msg : String)
  deriving DecidableEq, Repr

/-- Observable record of one `getConnection` scope: the arguments passed to
`sqlite3.connect`, whether a connection object was obtained, whether it was
closed by the time control left the scope, the log lines written, and the
exit outcome. -/
structure ConnScopeResult (α : Type) where
  connectArgs : String × Int
  opened : Bool
  closed : Bool
  logs : List String
  outcome : ExitOutcome α
  deriving DecidableEq, Repr

/-- `getConnection`, the `@contextmanager` accessor: `sqlite3.connect(dbPath,
timeout)` may raise (modelled by `openErr`); on success the connection is
yielded to the body.  An `sqlite3.Error` from open or body is logged and
re-raised; any error or normal exit passes the `finally` block, which closes
the connection if one was assigned. -/
def getConnection (c : DatabaseConnection) (openErr : Option String)
    (body : BodyOutcome α) : ConnScopeResult α :=
  match openErr with
  | some e =>
    { connectArgs := (c.dbPath, c.connectionTimeout)
      opened := false
      closed := false
      logs := ["Database connection error: " ++ e]
      outcome := .sqliteRaise e }
  | none =>
    match body with
    | .ok a =>
      { connectArgs := (c.dbPath, c.connectionTimeout)
        opened := true
        closed := true
        logs := []
        outcome := .normal a }
    | .sqliteErr e =>
      { connectArgs := (c.dbPath, c.connectionTimeout)
        opened := true
        closed := true
        logs := ["Database connection error: " ++ e]
        outcome := .sqliteRaise e }
    | .otherErr e =>
      { connectArgs := (c.dbPath, c.connectionTimeout)
        opened := true
        closed := true
        logs := []
        outcome := .otherRaise e }

/-! ### `initializeDatabase` error flow -/

/-- Storage-engine outcomes of the four fallible steps of one
`initializeDatabase` call: `sqlite3.connect`, `_createUserTable`,
`_insertSampleData`, and `connection.commit()` (`none` = the step succeeds,
`some e` = it raises `sqlite3.Error` with message `e`). -/
structure InitOutcomes where
  openErr : Option String
  createErr : Option String
  seedErr : Option String
  commitErr : Option String
  deriving DecidableEq, Repr

/-- The body run inside the `with self.getConnection()` scope: create table,
seed data, commit, in order; the first step that raises aborts the rest. -/
def bodySequence (o : InitOutcomes) : BodyOutcome Unit :=
  match o.createErr with
  | some e => .sqliteErr e
  | none =>
    match o.seedErr with
    | some e => .sqliteErr e
    | none =>
      match o.commitErr with
      | some e => .sqliteErr e
      | none => .ok ()

/-- `initializeDatabase`: runs the body inside `getConnection`, returns `True`
on success; `except sqlite3.Error` turns a storage-engine error into `False`;
any non-storage error would escape uncaught (`Except.error`). -/
def initializeDatabase (c : DatabaseConnection) (o : InitOutcomes) :
    Except String Bool :=
  match (getConnection c o.openErr (bodySequence o)).outcome with
  | .normal _ => .ok true
  | .sqliteRaise _ => .ok false
  | .otherRaise m => .error m

/-! ### Schema (`_createUserTable` DDL) -/

/-- SQL column types appearing in the `users` DDL. -/
inductive SqlType where
  | integer
  | text
  | real
  | timestamp
  deriving DecidableEq, Repr

/-- One column declaration of the `users` DDL: name, type, and which
constraint clauses it carries. -/
structure ColumnSpec where
  colName : String
  colType : SqlType
  notNull : Bool
  unique : Bool
  primaryKey : Bool
  hasCheck : Bool
  defaultCurrentTimestamp : Bool
  deriving DecidableEq, Repr

/-- The column list of `CREATE TABLE IF NOT EXISTS users (...)`, clause by
clause from the source DDL. -/
def usersColumns : List ColumnSpec :=
  [ ⟨"id", .integer, false, false, true, false, false⟩,
    ⟨"name", .text, true, false, false, false, false⟩,
    ⟨"email", .text, true, true, false, false, false⟩,
    ⟨"age", .integer, false, false, false, true, false⟩,
    ⟨"department", .text, true, false, false, false, false⟩,
    ⟨"salary", .real, false, false, false, true, false⟩,
    ⟨"created_at", .timestamp, false, false, false, false, true⟩ ]

/-- The `CHECK(age >= 0 AND age <= 150)` constraint predicate. -/
def ageCheck (a : Int) : Bool :=
  decide (0 ≤ a) && decide (a ≤ 150)

/-- The `CHECK(salary >= 0)` constraint predicate. -/
def salaryCheck (s : Rat) : Bool :=
  decide (0 ≤ s)


theorem insertSampleData_eq (t : Nat) (tbl : List UserRow) :
    insertSampleData t tbl =
      tbl.filter (fun r => !conflictsAnySeed r) ++ sampleUsers.map (mkSeedRow t) := by
  simp only [insertSampleData, sampleUsers, List.map_cons, List.map_nil,
    List.foldl_cons, List.foldl_nil, insertOrReplace, List.filter_append,
    List.filter_filter]
  simp only [List.filter_cons, List.filter_nil]
  norm_num [replaceConflict, mkSeedRow]
  congr 1
  apply List.filter_congr
  intro r _
  simp only [conflictsAnySeed, seedIds, seedEmails, List.contains_cons,
    List.contains_nil, Bool.or_false, Bool.not_or, Bool.and_assoc,
    Bool.and_comm, Bool.and_left_comm]

theorem seedId_and_noConflict_false (r : UserRow) :
    (seedIds.contains r.id && !conflictsAnySeed r) = false := by
  cases h : seedIds.contains r.id
  · simp
  · simp only [conflictsAnySeed, h, Bool.true_or, Bool.not_true, Bool.and_false]

theorem filter_seedIds_insertSampleData (t : Nat) (tbl : List UserRow) :
    (insertSampleData t tbl).filter (fun r => seedIds.contains r.id) =
      sampleUsers.map (mkSeedRow t) := by
  rw [insertSampleData_eq, List.filter_append, List.filter_filter]
  have h1 : tbl.filter (fun r => seedIds.contains r.id && !conflictsAnySeed r) = [] := by
    apply List.filter_eq_nil_iff.mpr
    intro r _
    rw [seedId_and_noConflict_false r]
    exact fun h => Bool.noConfusion h
  rw [h1, List.nil_append]
  simp [sampleUsers, mkSeedRow, seedIds]

theorem proj6_filter_seed (t : Nat) (tbl : List UserRow) :
    ((insertSampleData t tbl).filter (fun r => seedIds.contains r.id)).map proj6 =
      sampleUsers := by
  rw [filter_seedIds_insertSampleData]
  simp [sampleUsers, mkSeedRow, proj6]

theorem createdAt_filter_seed (t : Nat) (tbl : List UserRow) :
    ((insertSampleData t tbl).filter (fun r => seedIds.contains r.id)).map
        (fun r => r.created_at) = [t, t, t, t, t] := by
  rw [filter_seedIds_insertSampleData]
  simp [sampleUsers, mkSeedRow]

theorem mem_insertSampleData_of_noConflict (t : Nat) (tbl : List UserRow)
    (r : UserRow) (hr : r ∈ tbl) (hc : conflictsAnySeed r = false) :
    r ∈ insertSampleData t tbl := by
  rw [insertSampleData_eq]
  exact List.mem_append_left _ (List.mem_filter.mpr ⟨hr, by simp [hc]⟩)

theorem mem_insertSampleData_cases (t : Nat) (tbl : List UserRow)
    (r : UserRow) (hr : r ∈ insertSampleData t tbl) :
    r ∈ tbl ∨ r ∈ sampleUsers.map (mkSeedRow t) := by
  rw [insertSampleData_eq] at hr
  rcases List.mem_append.mp hr with h | h
  · exact Or.inl (List.mem_filter.mp h).1
  · exact Or.inr h

theorem seedId_of_mem_seedRows (t : Nat) (r : UserRow)
    (h : r ∈ sampleUsers.map (mkSeedRow t)) : seedIds.contains r.id = true := by
  simp only [sampleUsers, mkSeedRow, List.map_cons, List.map_nil, List.mem_cons,
    List.not_mem_nil, or_false] at h
  rcases h with h | h | h | h | h <;> simp [h, seedIds]

theorem not_mem_of_emailClash (t : Nat) (tbl : List UserRow) (r : UserRow)
    (hid : seedIds.contains r.id = false)
    (hem : seedEmails.contains r.email = true) :
    r ∉ insertSampleData t tbl := by
  intro hmem
  rw [insertSampleData_eq] at hmem
  rcases List.mem_append.mp hmem with h | h
  · have hc := (List.mem_filter.mp h).2
    simp only [conflictsAnySeed, Bool.not_or, Bool.and_eq_true, Bool.not_eq_true'] at hc
    rw [hc.2] at hem
    exact Bool.noConfusion hem
  · rw [seedId_of_mem_seedRows t r h] at hid
    exact Bool.noConfusion hid

/-- One successful `initializeDatabase` run always yields a table: ensure the
schema (create when absent), then upsert the seed rows into it. -/
theorem initializeRun_eq (t : Nat) (db : Option (List UserRow)) :
    initializeRun t db = some (insertSampleData t (db.getD [])) := by
  cases db <;> rfl

/-! ### Claim theorems -/

/-- C1: `initializeDatabase` returns a boolean on every storage-engine outcome
(`Except.ok`: no storage-engine exception escapes), and returns `true` exactly
when all four steps — connection open, schema creation, seeding, commit —
raised no `sqlite3.Error`; any such error is converted into a `false`
return. -/
theorem C1_init_error_boundary (c : DatabaseConnection) (o : InitOutcomes) :
    (∃ b, initializeDatabase c o = Except.ok b) ∧
    (initializeDatabase c o = Except.ok true ↔
      o.openErr = none ∧ o.createErr = none ∧ o.seedErr = none ∧
        o.commitErr = none) := by
  rcases o with ⟨oe, ce, se, me⟩
  cases oe <;> cases ce <;> cases se <;> cases me <;>
    simp [initializeDatabase, bodySequence, getConnection]

/-- C2: after any number `n ≥ 1` of successive `initializeDatabase` runs from
any starting state, the rows with ids 1..5 are exactly the five literal seed
records in their six supplied fields, regardless of `n` and of the run
timestamps. -/
theorem C2_idempotent_convergence (n : Nat) (hn : 1 ≤ n) (ts : Nat → Nat)
    (db0 : Option (List UserRow)) :
    ∃ tbl, iterateInit ts n db0 = some tbl ∧
      (tbl.filter (fun r => seedIds.contains r.id)).map proj6 = sampleUsers := by
  cases n with
  | zero => exact absurd hn (by decide)
  | succ m =>
    refine ⟨insertSampleData (ts m) ((iterateInit ts m db0).getD []), ?_, ?_⟩
    · show initializeRun (ts m) (iterateInit ts m db0) = _
      exact initializeRun_eq _ _
    · exact proj6_filter_seed _ _

/-- C2 witness: two runs on a fresh database converge to the seed rows. -/
theorem C2_idempotent_convergence_witness :
    1 ≤ 2 ∧
    ∃ tbl, iterateInit (fun _ => 0) 2 none = some tbl ∧
      (tbl.filter (fun r => seedIds.contains r.id)).map proj6 = sampleUsers :=
  ⟨by decide, C2_idempotent_convergence 2 (by decide) (fun _ => 0) none⟩

/-- A pre-existing row whose id (10) matches no seed id but whose email is the
seed email of id 1. -/
def emailClashRow : UserRow := ⟨10, "Eve", "john@example.com", 40, "IT", 50000, 0⟩

/-- C3 counterexample: the claim says no row is replaced or removed on any key
other than the primary key id, but the seed upsert deletes `emailClashRow` —
a row whose id is outside the seed ids — because its `email` collides with a
seed email through the UNIQUE constraint. -/
theorem C3_counterexample :
    emailClashRow ∈ ([emailClashRow] : List UserRow) ∧
    seedIds.contains emailClashRow.id = false ∧
    emailClashRow ∉ insertSampleData 0 [emailClashRow] := by
  decide

/-- C3 (amended): the seed step upserts exactly the 5 literal rows, and its
replace-on-conflict semantics is keyed on the primary key `id` AND on the
UNIQUE `email` column: rows conflicting on neither are preserved, every result
row is an old row or a seed row, and a pre-existing row whose email matches a
seed email is removed even when its id matches no seed id. -/
theorem C3_seed_upsert_amended (t : Nat) (tbl : List UserRow) :
    ((insertSampleData t tbl).filter (fun r => seedIds.contains r.id)).map proj6
        = sampleUsers ∧
    (∀ r ∈ tbl, conflictsAnySeed r = false → r ∈ insertSampleData t tbl) ∧
    (∀ r ∈ insertSampleData t tbl, r ∈ tbl ∨ r ∈ sampleUsers.map (mkSeedRow t)) ∧
    (∀ r ∈ tbl, seedIds.contains r.id = false →
      seedEmails.contains r.email = true → r ∉ insertSampleData t tbl) :=
  ⟨proj6_filter_seed t tbl,
   fun r hr hc => mem_insertSampleData_of_noConflict t tbl r hr hc,
   fun r hr => mem_insertSampleData_cases t tbl r hr,
   fun r _ hid hem => not_mem_of_emailClash t tbl r hid hem⟩

/-- A pre-existing row conflicting with no seed id and no seed email. -/
def keptRowA : UserRow := ⟨99, "Sam", "sam@example.com", 20, "Ops", 100, 2⟩

/-- C3 witness: on a concrete table, the non-conflicting row survives the seed
upsert and the email-conflicting row is removed. -/
theorem C3_seed_upsert_amended_witness :
    keptRowA ∈ insertSampleData 4 [keptRowA, emailClashRow] ∧
    emailClashRow ∉ insertSampleData 4 [keptRowA, emailClashRow] :=
  ⟨(C3_seed_upsert_amended 4 [keptRowA, emailClashRow]).2.1 keptRowA
      (by decide) (by decide),
   (C3_seed_upsert_amended 4 [keptRowA, emailClashRow]).2.2.2 emailClashRow
      (by decide) (by decide) (by decide)⟩

/-- C4: on every exit of the `getConnection` scope — normal return,
storage-engine error on open, storage-engine or other error from the body —
if a connection object was obtained it is closed before control leaves. -/
theorem C4_closed_on_exit {α : Type} (c : DatabaseConnection)
    (openErr : Option String) (body : BodyOutcome α)
    (h : (getConnection c openErr body).opened = true) :
    (getConnection c openErr body).closed = true := by
  cases openErr <;> cases body <;> simp_all [getConnection]

/-- C4 witness: a concrete successful scope opens and closes the connection. -/
theorem C4_closed_on_exit_witness :
    (getConnection ⟨"users.db", 30⟩ none (BodyOutcome.ok ())).opened = true ∧
    (getConnection ⟨"users.db", 30⟩ none (BodyOutcome.ok ())).closed = true :=
  ⟨rfl, C4_closed_on_exit ⟨"users.db", 30⟩ none (BodyOutcome.ok ()) rfl⟩

/-- C5: when `sqlite3.connect` raises a storage-engine error, `getConnection`
logs it and re-raises exactly that error to the caller; the exit outcome is
the re-raised error, never a silent normal return or a default value. -/
theorem C5_open_error_logged_reraised {α : Type} (c : DatabaseConnection)
    (e : String) (body : BodyOutcome α) :
    (getConnection c (some e) body).outcome = ExitOutcome.sqliteRaise e ∧
    (getConnection c (some e) body).logs = ["Database connection error: " ++ e]
    := ⟨rfl, rfl⟩

/-- C6: `_createUserTable` is a no-op (and raises no error) when the table
already exists, creates it empty when absent, and the DDL declares exactly the
seven columns with their clauses; the two CHECK constraints mean 0..150 for
age and ≥ 0 for salary. -/
theorem C6_schema_exact_and_idempotent :
    (∀ tbl, createUserTable (some tbl) = some tbl) ∧
    createUserTable none = some [] ∧
    usersColumns =
      [ ⟨"id", .integer, false, false, true, false, false⟩,
        ⟨"name", .text, true, false, false, false, false⟩,
        ⟨"email", .text, true, true, false, false, false⟩,
        ⟨"age", .integer, false, false, false, true, false⟩,
        ⟨"department", .text, true, false, false, false, false⟩,
        ⟨"salary", .real, false, false, false, true, false⟩,
        ⟨"created_at", .timestamp, false, false, false, false, true⟩ ] ∧
    (∀ a : Int, ageCheck a = true ↔ 0 ≤ a ∧ a ≤ 150) ∧
    (∀ s : Rat, salaryCheck s = true ↔ 0 ≤ s) := by
  refine ⟨fun tbl => rfl, rfl, rfl, ?_, ?_⟩
  · intro a; simp [ageCheck]
  · intro s; simp [salaryCheck]

/-- A pre-existing row with id 42 (outside 1..5) whose email is the seed email
of id 2. -/
def janeClashRow : UserRow := ⟨42, "Zed", "jane@example.com", 33, "HR", 1000, 7⟩

/-- C7 counterexample: the claim says no row is ever deleted by a run,
whatever its email value, but a run of the bootstrap deletes `janeClashRow`,
whose id is outside 1..5, because of the email UNIQUE conflict. -/
theorem C7_counterexample :
    ∃ tbl, initializeRun 3 (some [janeClashRow]) = some tbl ∧
      seedIds.contains janeClashRow.id = false ∧
      janeClashRow ∉ tbl :=
  ⟨insertSampleData 3 [janeClashRow], rfl, by decide, by decide⟩

/-- C7 (amended): a run of the bootstrap deletes no row except pre-existing
rows that conflict with a seed row on the id primary key or on the unique
email column; every row conflicting on neither is still present after the
run. -/
theorem C7_no_delete_amended (t : Nat) (db : Option (List UserRow))
    (tbl2 : List UserRow) (h : initializeRun t db = some tbl2)
    (r : UserRow) (hr : r ∈ db.getD []) (hc : conflictsAnySeed r = false) :
    r ∈ tbl2 := by
  rw [initializeRun_eq] at h
  cases h
  exact mem_insertSampleData_of_noConflict t _ r hr hc

/-- A pre-existing row conflicting with no seed id and no seed email, for the
C7 witness. -/
def keptRowB : UserRow := ⟨77, "Pat", "pat@example.com", 41, "Legal", 90, 6⟩

/-- C7 witness: a concrete non-conflicting row survives a concrete run. -/
theorem C7_no_delete_amended_witness : keptRowB ∈ insertSampleData 5 [keptRowB] :=
  C7_no_delete_amended 5 (some [keptRowB]) (insertSampleData 5 [keptRowB]) rfl
    keptRowB (by decide) (by decide)

/-- C8: construction reads `DATABASE_PATH` (default `users.db`) and
`DB_TIMEOUT` parsed as an integer (default 30) from the environment, and
exactly these two stored values are the arguments later passed to the
`sqlite3.connect` call of `getConnection`. -/
theorem C8_construction_from_env (env : Env) (c : DatabaseConnection)
    (h : fromEnv env = Except.ok c) :
    c.dbPath = (env "DATABASE_PATH").getD "users.db" ∧
    pyInt ((env "DB_TIMEOUT").getD "30") = some c.connectionTimeout ∧
    (env "DATABASE_PATH" = none → c.dbPath = "users.db") ∧
    (env "DB_TIMEOUT" = none → c.connectionTimeout = 30) ∧
    (∀ (openErr : Option String) (body : BodyOutcome Unit),
      (getConnection c openErr body).connectArgs
        = (c.dbPath, c.connectionTimeout)) := by
  unfold fromEnv at h
  cases hp : pyInt ((env "DB_TIMEOUT").getD "30") <;> rw [hp] at h
  · cases h
  · cases h
    refine ⟨rfl, rfl, fun hd => by rw [hd]; rfl, fun hd => ?_, fun oe body => ?_⟩
    · rw [hd] at hp
      have h30 : pyInt "30" = some 30 := rfl
      rw [Option.getD_none] at hp
      rw [h30] at hp
      exact (Option.some.inj hp).symm
    · cases oe <;> cases body <;> rfl

/-- The empty environment: neither variable is set. -/
def envEmpty : Env := fun _ => none

/-- C8 witness: with an empty environment, construction succeeds with the
default path and timeout. -/
theorem C8_construction_from_env_witness :
    fromEnv envEmpty = Except.ok (⟨"users.db", 30⟩ : DatabaseConnection) ∧
    (⟨"users.db", 30⟩ : DatabaseConnection).dbPath = "users.db" ∧
    (⟨"users.db", 30⟩ : DatabaseConnection).connectionTimeout = 30 :=
  ⟨rfl,
   (C8_construction_from_env envEmpty ⟨"users.db", 30⟩ rfl).2.2.1 rfl,
   (C8_construction_from_env envEmpty ⟨"users.db", 30⟩ rfl).2.2.2.1 rfl⟩

/-- C9: when `DB_TIMEOUT` is set to a string `int()` cannot parse,
construction raises `ValueError` (before any operation runs): it is not total
over arbitrary environments. -/
theorem C9_bad_timeout_raises (env : Env) (s : String)
    (hset : env "DB_TIMEOUT" = some s) (hbad : pyInt s = none) :
    fromEnv env = Except.error PyError.valueError := by
  unfold fromEnv
  rw [hset, Option.getD_some, hbad]

/-- An environment where `DB_TIMEOUT` is set to the non-integer string
`abc`. -/
def envBadTimeout : Env := fun k => if k = "DB_TIMEOUT" then some "abc" else none

/-- C9 witness: setting `DB_TIMEOUT` to `abc` makes construction raise
`ValueError`. -/
theorem C9_bad_timeout_raises_witness :
    fromEnv envBadTimeout = Except.error PyError.valueError :=
  C9_bad_timeout_raises envBadTimeout "abc" rfl rfl

/-- C10: a successful run at timestamp `t` leaves the rows with ids 1..5 with
`created_at = t` — the timestamp default of that run, not any earlier value —
while their other six fields are restored to the literal seed values. -/
theorem C10_created_at_reset (t : Nat) (db : Option (List UserRow)) :
    ∃ tbl, initializeRun t db = some tbl ∧
      (tbl.filter (fun r => seedIds.contains r.id)).map (fun r => r.created_at)
        = [t, t, t, t, t] ∧
      (tbl.filter (fun r => seedIds.contains r.id)).map proj6 = sampleUsers :=
  ⟨insertSampleData t (db.getD []), initializeRun_eq t db,
   createdAt_filter_seed t _, proj6_filter_seed t _⟩

end CompliantDatabase
